import Mathlib

/-!
Verification of the MibandHeart heart-rate monitor (src/main.py).

The Python source is shallowly embedded: payload bytes are natural numbers,
the ambient wall clock readings (datetime.now() at each call site) are passed
in as explicit string parameters, and the mutable HeartRateMonitor object is
explicit state threaded through the operations. The CSV file is modelled by
its logical row content, split into rows already flushed to stable storage
and rows still buffered in the file object.
-/

namespace MibandHeart

/-- Heart Rate Service UUID, constant HRS_UUID of src/main.py. -/
def HRS_UUID : String := "0000180d-0000-1000-8000-00805f9b34fb"

/-- Heart Rate Measurement characteristic UUID, constant HRM_UUID of src/main.py. -/
def HRM_UUID : String := "00002a37-0000-1000-8000-00805f9b34fb"

/-- The dictionary parse_heart_rate_data returns on success: keys heart_rate,
sensor_contact (None / bool), flag and timestamp (datetime.now().isoformat()). -/
structure ParsedData where
  heart_rate : Nat
  sensor_contact : Option Bool
  flag : Nat
  timestamp : String
  deriving Repr, DecidableEq

/-- Result of parse_heart_rate_data: the error dictionary or the decoded sample. -/
inductive ParseResult where
  | error (msg : String)
  | ok (d : ParsedData)
  deriving Repr, DecidableEq

/-- Embedding of HeartRateMonitor.parse_heart_rate_data (src/main.py lines 32-56).
`data` is the notification payload as byte values; `now` stands for the string
datetime.now().isoformat() returns at the moment of this call. -/
def parse_heart_rate_data (data : List Nat) (now : String) : ParseResult :=
  if data.length < 2 then
    ParseResult.error "数据长度不足"
  else
    let flag := data.getD 0 0
    let hr8 := data.getD 1 0
    let heart_rate_value :=
      if flag &&& 0b00001 ≠ 0 then
        if 3 ≤ data.length then hr8 ||| (data.getD 2 0 <<< 8) else hr8
      else hr8
    let sensor_contact : Option Bool :=
      if flag &&& 0b00100 ≠ 0 then some (flag &&& 0b00010 ≠ 0) else none
    ParseResult.ok
      { heart_rate := heart_rate_value
        sensor_contact := sensor_contact
        flag := flag
        timestamp := now }

/-- The spec's tri-state sensor-contact vocabulary. -/
inductive SensorContactStatus where
  | Unsupported
  | NotDetected
  | Detected
  deriving Repr, DecidableEq

/-- Reads the sensor_contact field (None / False / True) in the spec's tri-state
vocabulary. -/
def sensorContactStatus : Option Bool → SensorContactStatus
  | none => SensorContactStatus.Unsupported
  | some false => SensorContactStatus.NotDetected
  | some true => SensorContactStatus.Detected

/-- The heart_rate field of a parse result, when it is not the error dictionary. -/
def result_heart_rate : ParseResult → Option Nat
  | ParseResult.error _ => none
  | ParseResult.ok d => some d.heart_rate

/-- The sensor-contact status of a parse result, when it is not the error dictionary. -/
def result_contact_status : ParseResult → Option SensorContactStatus
  | ParseResult.error _ => none
  | ParseResult.ok d => some (sensorContactStatus d.sensor_contact)

/-- The timestamp field of a parse result, when it is not the error dictionary. -/
def result_timestamp : ParseResult → Option String
  | ParseResult.error _ => none
  | ParseResult.ok d => some d.timestamp

/-- A parse result with the timestamp field blanked, leaving the payload-determined
fields. -/
def result_sans_timestamp : ParseResult → ParseResult
  | ParseResult.error msg => ParseResult.error msg
  | ParseResult.ok d => ParseResult.ok { d with timestamp := "" }

/-- One CSV row, the list of cell strings handed to csv.writer.writerow. -/
abbrev Row := List String

/-- The state of a HeartRateMonitor object that the modelled operations touch:
the in-memory history list and the CSV file. `csv_open` models csv_writer being
set; `rows_stable` are rows already flushed to stable storage, `rows_buffered`
rows written to the file object but not yet flushed. -/
structure MonitorState where
  heart_rate_history : List ParsedData
  csv_filename : Option String
  csv_open : Bool
  rows_stable : List Row
  rows_buffered : List Row
  deriving Repr, DecidableEq

/-- HeartRateMonitor.__init__ (lines 14-21): empty history, no CSV file yet. -/
def init_monitor : MonitorState :=
  { heart_rate_history := []
    csv_filename := none
    csv_open := false
    rows_stable := []
    rows_buffered := [] }

/-- csv.writer.writerow: appends one row to the file buffer. -/
def writerow (m : MonitorState) (row : Row) : MonitorState :=
  { m with rows_buffered := m.rows_buffered ++ [row] }

/-- file.flush(): moves every buffered row to stable storage. -/
def flush_csv (m : MonitorState) : MonitorState :=
  { m with rows_stable := m.rows_stable ++ m.rows_buffered, rows_buffered := [] }

/-- The logical content of the CSV file, header and data rows in write order. -/
def csv_rows (m : MonitorState) : List Row :=
  m.rows_stable ++ m.rows_buffered

/-- HeartRateMonitor.init_csv_file (lines 23-30): derives the filename from the
session-start timestamp `ts` (datetime.now().strftime at the call), opens the
file fresh and writes the header row; no flush here. -/
def init_csv_file (m : MonitorState) (ts : String) : MonitorState :=
  let m1 : MonitorState :=
    { m with
      csv_filename := some ("heart_rate_" ++ ts ++ ".csv")
      csv_open := true
      rows_stable := []
      rows_buffered := [] }
  writerow m1 ["time", "rate"]

/-- HeartRateMonitor.save_heart_rate_data (lines 58-70): append to the history,
write one CSV row [time-of-day, rate] and flush when the writer is open, then
trim the history to its last 500 entries when it exceeds 1000. `now_hms` stands
for datetime.now().strftime of the wall clock at the moment of the write. -/
def save_heart_rate_data (m : MonitorState) (data : ParsedData) (now_hms : String) :
    MonitorState :=
  let m1 : MonitorState :=
    { m with heart_rate_history := m.heart_rate_history ++ [data] }
  let m2 : MonitorState :=
    if m1.csv_open then
      flush_csv (writerow m1 [now_hms, toString data.heart_rate])
    else m1
  if 1000 < m2.heart_rate_history.length then
    { m2 with
      heart_rate_history :=
        m2.heart_rate_history.drop (m2.heart_rate_history.length - 500) }
  else m2

/-- notification_handler inside handle_heart_rate_notifications (lines 143-156):
parse the notification payload; when parsing yields the error dictionary do
nothing, otherwise save the sample. `now_iso` and `now_hms` are the wall-clock
readings taken inside parse and save respectively. -/
def notification_handler (m : MonitorState) (data : List Nat)
    (now_iso now_hms : String) : MonitorState :=
  match parse_heart_rate_data data now_iso with
  | ParseResult.error _ => m
  | ParseResult.ok d => save_heart_rate_data m d now_hms

/-- Delivers a sequence of samples to save_heart_rate_data in order. -/
def run_saves (m : MonitorState) (ds : List (ParsedData × String)) : MonitorState :=
  ds.foldl (fun s d => save_heart_rate_data s d.1 d.2) m

/-- A BLE device as bleak hands it to the detection callback. -/
structure Device where
  address : String
  name : Option String
  deriving Repr, DecidableEq

/-- detection_callback inside scan_for_heart_rate_devices (lines 84-90): accept
the advertisement only when the Heart Rate Service UUID is among the advertised
service UUIDs, and only when the address is not yet a key of devices_dict. The
insertion-ordered Python dict is an association list keyed by address. -/
def detection_callback (devices_dict : List (String × Device)) (device : Device)
    (service_uuids : List String) : List (String × Device) :=
  if HRS_UUID ∈ service_uuids then
    if devices_dict.all (fun p => p.1 ≠ device.address) then
      devices_dict ++ [(device.address, device)]
    else devices_dict
  else devices_dict

/-- scan_for_heart_rate_devices (lines 78-97): fold the advertisement stream
through the callback and return the dict values in insertion order. -/
def scan_for_heart_rate_devices (advs : List (Device × List String)) : List Device :=
  ((advs.foldl (fun d a => detection_callback d a.1 a.2) []).map (fun p => p.2))

/-- Spec-side reference for the DeviceRegistry (spec section 4.4): keep, in
discovery order, the first advertisement for each address among those whose
service list carries the Heart Rate Service UUID. `seen` is the set of
addresses already taken. -/
def dedupeFirst (seen : List String) : List Device → List Device
  | [] => []
  | d :: rest =>
    if d.address ∈ seen then dedupeFirst seen rest
    else d :: dedupeFirst (d.address :: seen) rest

/-- Spec-side reference registry result for an advertisement stream. -/
def registry_spec (advs : List (Device × List String)) : List Device :=
  dedupeFirst [] ((advs.filter (fun a => HRS_UUID ∈ a.2)).map (fun a => a.1))

end MibandHeart

namespace MibandHeart

theorem lor_shiftLeft_eq_add : ∀ (n a b : Nat), a < 2 ^ n → a ||| b <<< n = a + 2 ^ n * b := by
  intro n
  induction n with
  | zero =>
    intro a b h
    have ha : a = 0 := by omega
    subst ha
    simp [Nat.shiftLeft_zero]
  | succ n ih =>
    intro a b h
    have hd : Nat.bit a.bodd a.div2 = a := Nat.bit_decomp a
    have hv : Nat.bit a.bodd a.div2 = 2 * a.div2 + (a.bodd).toNat := Nat.bit_val _ _
    have hp : (2 : Nat) ^ (n + 1) = 2 * 2 ^ n := by ring
    have hlt : a.div2 < 2 ^ n := by
      rw [Nat.div2_val]
      rw [hp] at h
      omega
    have hs : b <<< (n + 1) = Nat.bit false (b <<< n) := by
      rw [Nat.bit_val, Nat.shiftLeft_eq, Nat.shiftLeft_eq]
      simp [Bool.toNat]
      ring
    calc a ||| b <<< (n + 1)
        = Nat.bit a.bodd a.div2 ||| Nat.bit false (b <<< n) := by rw [hd, hs]
      _ = Nat.bit (a.bodd || false) (a.div2 ||| b <<< n) := Nat.lor_bit _ _ _ _
      _ = Nat.bit a.bodd (a.div2 + 2 ^ n * b) := by rw [Bool.or_false, ih a.div2 b hlt]
      _ = 2 * (a.div2 + 2 ^ n * b) + (a.bodd).toNat := Nat.bit_val _ _
      _ = a + 2 ^ (n + 1) * b := by
            have ha : 2 * a.div2 + (a.bodd).toNat = a := by rw [← hv, hd]
            rw [hp, Nat.mul_assoc]
            omega

theorem parse_eq_ok (data : List Nat) (now : String) (h2 : 2 ≤ data.length) :
    parse_heart_rate_data data now = ParseResult.ok
      { heart_rate :=
          if data.getD 0 0 &&& 1 ≠ 0 ∧ 3 ≤ data.length
          then data.getD 1 0 ||| (data.getD 2 0 <<< 8)
          else data.getD 1 0
        sensor_contact :=
          if data.getD 0 0 &&& 4 ≠ 0 then some (data.getD 0 0 &&& 2 ≠ 0) else none
        flag := data.getD 0 0
        timestamp := now } := by
  unfold parse_heart_rate_data
  rw [if_neg (by omega)]
  by_cases h1 : data.getD 0 0 &&& 1 ≠ 0 <;> by_cases h3 : 3 ≤ data.length <;>
    simp [h1, h3]

theorem parse_eq_error_of_short (data : List Nat) (now : String) (h : data.length < 2) :
    parse_heart_rate_data data now = ParseResult.error "数据长度不足" := by
  unfold parse_heart_rate_data
  rw [if_pos h]

theorem getD_lt_of_forall (l : List Nat) (i : Nat) (h : i < l.length)
    (hb : ∀ b ∈ l, b < 256) : l.getD i 0 < 256 := by
  rw [List.getD_eq_getElem l 0 h]
  exact hb _ (List.getElem_mem h)

theorem sensorContactStatus_some_decide (c : Prop) [Decidable c] :
    sensorContactStatus (some (decide c))
      = if c then SensorContactStatus.Detected else SensorContactStatus.NotDetected := by
  by_cases h : c <;> simp [h, sensorContactStatus]

/-- C1: for payloads of length at least 2 with flag bit 0 clear the decoded rate is
byte 1; for payloads of length at least 3 with flag bit 0 set it is byte1 + 256*byte2;
the sensor-contact status is Detected/NotDetected per bit 1 when bit 2 is set and
Unsupported when bit 2 is clear. -/
theorem C1_parse_decode_postcondition (data : List Nat) (now : String)
    (hb : ∀ b ∈ data, b < 256) :
    (2 ≤ data.length → data.getD 0 0 &&& 1 = 0 →
      result_heart_rate (parse_heart_rate_data data now) = some (data.getD 1 0)) ∧
    (3 ≤ data.length → data.getD 0 0 &&& 1 ≠ 0 →
      result_heart_rate (parse_heart_rate_data data now)
        = some (data.getD 1 0 + 256 * data.getD 2 0)) ∧
    (2 ≤ data.length →
      result_contact_status (parse_heart_rate_data data now)
        = some (if data.getD 0 0 &&& 4 ≠ 0
                then (if data.getD 0 0 &&& 2 ≠ 0 then SensorContactStatus.Detected
                      else SensorContactStatus.NotDetected)
                else SensorContactStatus.Unsupported)) := by
  refine ⟨?_, ?_, ?_⟩
  · intro h2 h1
    rw [parse_eq_ok data now h2]
    show some (if data.getD 0 0 &&& 1 ≠ 0 ∧ 3 ≤ data.length
               then data.getD 1 0 ||| (data.getD 2 0 <<< 8)
               else data.getD 1 0) = some (data.getD 1 0)
    rw [if_neg (fun hcc => hcc.1 h1)]
  · intro h3 h1
    rw [parse_eq_ok data now (by omega)]
    show some (if data.getD 0 0 &&& 1 ≠ 0 ∧ 3 ≤ data.length
               then data.getD 1 0 ||| (data.getD 2 0 <<< 8)
               else data.getD 1 0) = some (data.getD 1 0 + 256 * data.getD 2 0)
    rw [if_pos ⟨h1, h3⟩]
    have hb1 : data.getD 1 0 < 256 := getD_lt_of_forall data 1 (by omega) hb
    rw [lor_shiftLeft_eq_add 8 (data.getD 1 0) (data.getD 2 0) hb1]
    norm_num
  · intro h2
    rw [parse_eq_ok data now h2]
    show some (sensorContactStatus
          (if data.getD 0 0 &&& 4 ≠ 0 then some (data.getD 0 0 &&& 2 ≠ 0) else none)) = _
    by_cases h4 : data.getD 0 0 &&& 4 ≠ 0
    · rw [if_pos h4, if_pos h4, sensorContactStatus_some_decide]
    · rw [if_neg h4, if_neg h4]
      rfl

theorem C1_witness :
    (∀ b ∈ ([5, 80, 1] : List Nat), b < 256) ∧
    result_heart_rate (parse_heart_rate_data [5, 80, 1] "t") = some (80 + 256 * 1) ∧
    result_contact_status (parse_heart_rate_data [5, 80, 1] "t")
      = some SensorContactStatus.NotDetected := by
  have h := C1_parse_decode_postcondition [5, 80, 1] "t" (by decide)
  refine ⟨by decide, h.2.1 (by decide) (by decide), ?_⟩
  rw [h.2.2 (by decide)]
  decide

end MibandHeart

namespace MibandHeart

/-- C2 counterexample: the payload [0x01, 72] has flag bit 0 set and length 2 < 3,
yet parse returns a decoded sample (rate 72) instead of the TooShort error. -/
theorem C2_counterexample :
    (([1, 72] : List Nat).getD 0 0 &&& 1 ≠ 0) ∧ ([1, 72] : List Nat).length < 3 ∧
    parse_heart_rate_data [1, 72] "t" = ParseResult.ok
      { heart_rate := 72, sensor_contact := none, flag := 1, timestamp := "t" } :=
  ⟨by decide, by decide, rfl⟩

/-- C2 amended: with flag bit 0 set, parse fails with the TooShort error exactly for
payloads of length < 2; at length exactly 2 it instead succeeds with byte 1 as the
8-bit rate, skipping the 16-bit extension. -/
theorem C2_sixteen_bit_too_short (data : List Nat) (now : String)
    (_h1 : data.getD 0 0 &&& 1 ≠ 0) :
    (data.length < 2 → parse_heart_rate_data data now = ParseResult.error "数据长度不足") ∧
    (data.length = 2 →
      result_heart_rate (parse_heart_rate_data data now) = some (data.getD 1 0)) := by
  constructor
  · intro h
    exact parse_eq_error_of_short data now h
  · intro h
    rw [parse_eq_ok data now (by omega)]
    show some (if data.getD 0 0 &&& 1 ≠ 0 ∧ 3 ≤ data.length
               then data.getD 1 0 ||| (data.getD 2 0 <<< 8)
               else data.getD 1 0) = some (data.getD 1 0)
    rw [if_neg (fun hcc => by omega)]

theorem C2_witness :
    (([1] : List Nat).getD 0 0 &&& 1 ≠ 0) ∧ ([1] : List Nat).length < 2 ∧
    parse_heart_rate_data [1] "t" = ParseResult.error "数据长度不足" :=
  ⟨by decide, by decide, (C2_sixteen_bit_too_short [1] "t" (by decide)).1 (by decide)⟩

/-- C3: every payload of length below 2 makes parse fail with the TooShort error. -/
theorem C3_short_payload_fails (data : List Nat) (now : String) (h : data.length < 2) :
    parse_heart_rate_data data now = ParseResult.error "数据长度不足" :=
  parse_eq_error_of_short data now h

theorem C3_witness :
    (([] : List Nat).length < 2) ∧
    parse_heart_rate_data [] "t" = ParseResult.error "数据长度不足" :=
  ⟨by decide, C3_short_payload_fails [] "t" (by decide)⟩

/-- C4 counterexample: two calls of parse on the same payload bytes made at two
different wall-clock instants return different results, because the timestamp
field is produced inside parse from datetime.now() rather than supplied by the
caller. -/
theorem C4_counterexample :
    parse_heart_rate_data [0, 72] "2024-01-01T00:00:00"
      ≠ parse_heart_rate_data [0, 72] "2024-01-01T00:00:01" := by
  decide

/-- C4 amended: parse is deterministic as a function of the payload together with
the clock reading at call time: every field except the timestamp depends only on
the payload bytes, and the timestamp field is exactly the clock reading taken
inside parse. -/
theorem C4_deterministic_modulo_clock (data : List Nat) (t1 t2 : String) :
    result_sans_timestamp (parse_heart_rate_data data t1)
      = result_sans_timestamp (parse_heart_rate_data data t2) ∧
    (2 ≤ data.length →
      result_timestamp (parse_heart_rate_data data t1) = some t1) := by
  constructor
  · by_cases h2 : 2 ≤ data.length
    · rw [parse_eq_ok data t1 h2, parse_eq_ok data t2 h2]
      rfl
    · rw [parse_eq_error_of_short data t1 (by omega),
        parse_eq_error_of_short data t2 (by omega)]
  · intro h2
    rw [parse_eq_ok data t1 h2]
    rfl

theorem C4_witness :
    result_sans_timestamp (parse_heart_rate_data [0, 72] "a")
      = result_sans_timestamp (parse_heart_rate_data [0, 72] "b") ∧
    2 ≤ ([0, 72] : List Nat).length ∧
    result_timestamp (parse_heart_rate_data [0, 72] "a") = some "a" := by
  have h := C4_deterministic_modulo_clock [0, 72] "a" "b"
  exact ⟨h.1, by decide, h.2 (by decide)⟩

/-- C10: for byte-valued payloads of length at least 2 parse always returns a decoded
sample whose rate is at most 65535, and the error branch is reached exactly by the
payloads of length below 2. -/
theorem C10_total_and_bounded (data : List Nat) (now : String)
    (hb : ∀ b ∈ data, b < 256) :
    (2 ≤ data.length → ∃ d, parse_heart_rate_data data now = ParseResult.ok d ∧
      d.heart_rate ≤ 65535) ∧
    (∀ msg, parse_heart_rate_data data now = ParseResult.error msg → data.length < 2) := by
  constructor
  · intro h2
    refine ⟨_, parse_eq_ok data now h2, ?_⟩
    show (if data.getD 0 0 &&& 1 ≠ 0 ∧ 3 ≤ data.length
          then data.getD 1 0 ||| (data.getD 2 0 <<< 8)
          else data.getD 1 0) ≤ 65535
    have hb1 : data.getD 1 0 < 256 := getD_lt_of_forall data 1 (by omega) hb
    by_cases hc : data.getD 0 0 &&& 1 ≠ 0 ∧ 3 ≤ data.length
    · have hb2 : data.getD 2 0 < 256 := getD_lt_of_forall data 2 (by omega) hb
      rw [if_pos hc, lor_shiftLeft_eq_add 8 (data.getD 1 0) (data.getD 2 0) hb1]
      have h8 : (2 : Nat) ^ 8 = 256 := by norm_num
      rw [h8]
      omega
    · rw [if_neg hc]
      omega
  · intro msg h
    by_contra hlen
    rw [parse_eq_ok data now (by omega)] at h
    exact ParseResult.noConfusion h

theorem C10_witness :
    (∀ b ∈ ([0, 200] : List Nat), b < 256) ∧
    (∃ d, parse_heart_rate_data [0, 200] "t" = ParseResult.ok d ∧
      d.heart_rate ≤ 65535) := by
  have h := C10_total_and_bounded [0, 200] "t" (by decide)
  exact ⟨by decide, h.1 (by decide)⟩

end MibandHeart

namespace MibandHeart

theorem save_history_eq (m : MonitorState) (d : ParsedData) (t : String) :
    (save_heart_rate_data m d t).heart_rate_history =
      if 1000 < m.heart_rate_history.length + 1
      then (m.heart_rate_history ++ [d]).drop (m.heart_rate_history.length + 1 - 500)
      else m.heart_rate_history ++ [d] := by
  unfold save_heart_rate_data writerow flush_csv
  by_cases hc : m.csv_open <;> by_cases hl : 1000 < m.heart_rate_history.length + 1 <;>
    simp [hc, hl, List.length_append]

theorem save_csv_fields_of_open (m : MonitorState) (d : ParsedData) (t : String)
    (h : m.csv_open = true) :
    csv_rows (save_heart_rate_data m d t) = csv_rows m ++ [[t, toString d.heart_rate]] ∧
    (save_heart_rate_data m d t).rows_buffered = [] ∧
    (save_heart_rate_data m d t).csv_open = true := by
  unfold save_heart_rate_data writerow flush_csv csv_rows
  simp only [h, if_true]
  split <;> simp [List.append_assoc]

theorem run_saves_nil (m : MonitorState) : run_saves m [] = m := rfl

theorem run_saves_cons (m : MonitorState) (p : ParsedData × String)
    (ds : List (ParsedData × String)) :
    run_saves m (p :: ds) = run_saves (save_heart_rate_data m p.1 p.2) ds := rfl

theorem run_saves_append (m : MonitorState) (xs ys : List (ParsedData × String)) :
    run_saves m (xs ++ ys) = run_saves (run_saves m xs) ys :=
  List.foldl_append _ _ _ _

theorem run_saves_history_of_le (ds : List (ParsedData × String)) :
    ∀ m : MonitorState, m.heart_rate_history.length + ds.length ≤ 1000 →
    (run_saves m ds).heart_rate_history
      = m.heart_rate_history ++ ds.map (fun p => p.1) := by
  induction ds with
  | nil =>
    intro m h
    simp [run_saves]
  | cons p rest ih =>
    intro m h
    rw [run_saves_cons]
    have hs : (save_heart_rate_data m p.1 p.2).heart_rate_history
        = m.heart_rate_history ++ [p.1] := by
      rw [save_history_eq]
      rw [if_neg (by simp at h ⊢; omega)]
    rw [ih _ (by rw [hs]; simp at h ⊢; omega), hs]
    simp

/-- C5: after every save the history holds at most 1000 samples; whenever the append
pushes it past 1000 exactly the most recent 500 survive in order; appending 1001
samples to a fresh monitor leaves exactly samples 502 to 1001 in order. -/
theorem C5_buffer_bound (m : MonitorState) (d : ParsedData) (t : String)
    (ds : List (ParsedData × String)) :
    ((save_heart_rate_data m d t).heart_rate_history.length ≤ 1000) ∧
    (1000 < m.heart_rate_history.length + 1 →
      (save_heart_rate_data m d t).heart_rate_history
          = (m.heart_rate_history ++ [d]).drop (m.heart_rate_history.length + 1 - 500) ∧
      (save_heart_rate_data m d t).heart_rate_history.length = 500) ∧
    (ds.length = 1001 →
      (run_saves init_monitor ds).heart_rate_history
        = (ds.map (fun p => p.1)).drop 501 ∧
      (run_saves init_monitor ds).heart_rate_history.length = 500) := by
  refine ⟨?_, ?_, ?_⟩
  · rw [save_history_eq]
    split <;> simp <;> omega
  · intro hlen
    rw [save_history_eq, if_pos hlen]
    refine ⟨rfl, ?_⟩
    simp
    omega
  · intro hlen
    have hne : ds ≠ [] := by
      intro hh
      rw [hh] at hlen
      simp at hlen
    obtain ⟨xs, x, hds⟩ : ∃ xs x, ds = xs ++ [x] :=
      ⟨ds.dropLast, ds.getLast hne, (List.dropLast_append_getLast hne).symm⟩
    subst hds
    have hxs : xs.length = 1000 := by
      simp at hlen
      omega
    have hrun : (run_saves init_monitor xs).heart_rate_history
        = xs.map (fun p => p.1) := by
      have h0 := run_saves_history_of_le xs init_monitor (by simp [init_monitor, hxs])
      simpa [init_monitor] using h0
    have hone : run_saves (run_saves init_monitor xs) [x]
        = save_heart_rate_data (run_saves init_monitor xs) x.1 x.2 := rfl
    rw [run_saves_append, hone, save_history_eq, hrun]
    have hlenm : (xs.map (fun p => p.1)).length = 1000 := by simp [hxs]
    rw [if_pos (by rw [hlenm]; omega)]
    constructor
    · rw [hlenm]
      simp [List.map_append]
    · rw [hlenm]
      simp [hxs]

theorem C5_witness :
    1000 < ({ init_monitor with
        heart_rate_history
          := List.replicate 1000 (⟨72, none, 0, "s"⟩ : ParsedData) } :
            MonitorState).heart_rate_history.length + 1 ∧
    (save_heart_rate_data
      { init_monitor with
        heart_rate_history := List.replicate 1000 (⟨72, none, 0, "s"⟩ : ParsedData) }
      ⟨73, none, 0, "s"⟩ "t").heart_rate_history.length = 500 ∧
    (List.replicate 1001 ((⟨72, none, 0, "s"⟩ : ParsedData), "t")).length = 1001 ∧
    (run_saves init_monitor
        (List.replicate 1001 ((⟨72, none, 0, "s"⟩ : ParsedData), "t"))).heart_rate_history
      = ((List.replicate 1001 ((⟨72, none, 0, "s"⟩ : ParsedData), "t")).map
          (fun p => p.1)).drop 501 := by
  have h := C5_buffer_bound
    { init_monitor with
      heart_rate_history := List.replicate 1000 (⟨72, none, 0, "s"⟩ : ParsedData) }
    ⟨73, none, 0, "s"⟩ "t"
    (List.replicate 1001 ((⟨72, none, 0, "s"⟩ : ParsedData), "t"))
  refine ⟨by rw [List.length_replicate]; omega,
    (h.2.1 (by rw [List.length_replicate]; omega)).2,
    by rw [List.length_replicate],
    (h.2.2 (by rw [List.length_replicate])).1⟩

end MibandHeart

namespace MibandHeart

/-- C6: starting from any state with the CSV writer open, running a sequence of
accepted samples through save_heart_rate_data hands the sink exactly one row per
sample, in arrival order, regardless of history trimming. -/
theorem C6_sink_exactly_once (m : MonitorState) (ds : List (ParsedData × String))
    (h : m.csv_open = true) :
    csv_rows (run_saves m ds)
      = csv_rows m ++ ds.map (fun p => [p.2, toString p.1.heart_rate]) := by
  induction ds generalizing m with
  | nil => simp [run_saves]
  | cons p rest ih =>
    rw [run_saves_cons, ih _ (save_csv_fields_of_open m p.1 p.2 h).2.2,
      (save_csv_fields_of_open m p.1 p.2 h).1]
    simp

theorem C6_witness :
    (init_csv_file init_monitor "s").csv_open = true ∧
    csv_rows (run_saves (init_csv_file init_monitor "s")
        [((⟨72, none, 0, "a"⟩ : ParsedData), "h1"), ((⟨73, none, 0, "b"⟩ : ParsedData), "h2")])
      = csv_rows (init_csv_file init_monitor "s")
        ++ [["h1", "72"], ["h2", "73"]] := by
  have h := C6_sink_exactly_once (init_csv_file init_monitor "s")
    [((⟨72, none, 0, "a"⟩ : ParsedData), "h1"), ((⟨73, none, 0, "b"⟩ : ParsedData), "h2")]
    rfl
  exact ⟨rfl, by simpa using h⟩

/-- C8: init_csv_file writes exactly the header row time,rate before any data row,
and every save with the writer open appends exactly one row [time-of-day, rate]
and leaves nothing buffered, the whole file being flushed to stable storage. -/
theorem C8_sink_shape (m m2 : MonitorState) (ts t : String) (d : ParsedData)
    (h : m2.csv_open = true) :
    csv_rows (init_csv_file m ts) = [["time", "rate"]] ∧
    (init_csv_file m ts).csv_open = true ∧
    csv_rows (save_heart_rate_data m2 d t) = csv_rows m2 ++ [[t, toString d.heart_rate]] ∧
    (save_heart_rate_data m2 d t).rows_buffered = [] := by
  refine ⟨?_, rfl, (save_csv_fields_of_open m2 d t h).1, (save_csv_fields_of_open m2 d t h).2.1⟩
  simp [init_csv_file, writerow, csv_rows]

theorem C8_witness :
    (init_csv_file init_monitor "20240101_000000").csv_open = true ∧
    csv_rows (init_csv_file init_monitor "20240101_000000") = [["time", "rate"]] ∧
    csv_rows (save_heart_rate_data (init_csv_file init_monitor "20240101_000000")
        ⟨72, none, 0, "s"⟩ "00:00:01")
      = csv_rows (init_csv_file init_monitor "20240101_000000")
        ++ [["00:00:01", toString (72 : Nat)]] := by
  have h := C8_sink_shape init_monitor (init_csv_file init_monitor "20240101_000000")
    "20240101_000000" "00:00:01" ⟨72, none, 0, "s"⟩ rfl
  exact ⟨rfl, h.1, h.2.2.1⟩

/-- C9: a notification that fails to parse leaves the whole monitor state unchanged,
and a streaming session that receives one malformed and one well-formed notification
ends with one sample in the history and exactly one data row after the header. -/
theorem C9_malformed_skipped (m : MonitorState) (bad good : List Nat)
    (b1 b2 g1 g2 ts msg : String)
    (hbad : parse_heart_rate_data bad b1 = ParseResult.error msg)
    (hgood : 2 ≤ good.length) :
    notification_handler m bad b1 b2 = m ∧
    (notification_handler (notification_handler (init_csv_file init_monitor ts) bad b1 b2)
        good g1 g2).heart_rate_history.length = 1 ∧
    (csv_rows (notification_handler (notification_handler (init_csv_file init_monitor ts) bad b1 b2)
        good g1 g2)).length = 2 := by
  have hskip : ∀ mm : MonitorState, notification_handler mm bad b1 b2 = mm := by
    intro mm
    unfold notification_handler
    rw [hbad]
  have hopen : (init_csv_file init_monitor ts).csv_open = true := rfl
  have hgd : ∃ d, parse_heart_rate_data good g1 = ParseResult.ok d :=
    ⟨_, parse_eq_ok good g1 hgood⟩
  obtain ⟨d, hd⟩ := hgd
  have hrun : notification_handler (init_csv_file init_monitor ts) good g1 g2
      = save_heart_rate_data (init_csv_file init_monitor ts) d g2 := by
    unfold notification_handler
    rw [hd]
  refine ⟨hskip m, ?_, ?_⟩
  · rw [hskip, hrun, save_history_eq]
    simp [init_csv_file, writerow, init_monitor]
  · rw [hskip, hrun, (save_csv_fields_of_open _ d g2 hopen).1]
    simp [init_csv_file, writerow, csv_rows, init_monitor]

theorem C9_witness :
    parse_heart_rate_data [5] "x" = ParseResult.error "数据长度不足" ∧
    2 ≤ ([0, 72] : List Nat).length ∧
    notification_handler init_monitor [5] "x" "y" = init_monitor ∧
    (notification_handler
        (notification_handler (init_csv_file init_monitor "s") [5] "x" "y")
        [0, 72] "g1" "g2").heart_rate_history.length = 1 ∧
    (csv_rows (notification_handler
        (notification_handler (init_csv_file init_monitor "s") [5] "x" "y")
        [0, 72] "g1" "g2")).length = 2 := by
  have h := C9_malformed_skipped init_monitor [5] [0, 72] "x" "y" "g1" "g2" "s"
    "数据长度不足" rfl (by decide)
  exact ⟨rfl, by decide, h.1, h.2.1, h.2.2⟩

end MibandHeart

namespace MibandHeart

theorem dedupeFirst_congr : ∀ (l : List Device) (s1 s2 : List String),
    (∀ x, x ∈ s1 ↔ x ∈ s2) → dedupeFirst s1 l = dedupeFirst s2 l := by
  intro l
  induction l with
  | nil =>
    intro s1 s2 h
    rfl
  | cons d rest ih =>
    intro s1 s2 h
    simp only [dedupeFirst]
    by_cases hd : d.address ∈ s1
    · rw [if_pos hd, if_pos ((h _).mp hd), ih s1 s2 h]
    · rw [if_neg hd, if_neg (fun hh => hd ((h _).mpr hh)),
        ih (d.address :: s1) (d.address :: s2) (by intro x; simp [h x])]

theorem dedupeFirst_nodup : ∀ (l : List Device) (seen : List String),
    ((dedupeFirst seen l).map (fun d => d.address)).Nodup ∧
    (∀ d ∈ dedupeFirst seen l, d.address ∉ seen) := by
  intro l
  induction l with
  | nil =>
    intro seen
    simp [dedupeFirst]
  | cons d rest ih =>
    intro seen
    by_cases hd : d.address ∈ seen
    · simp only [dedupeFirst, if_pos hd]
      exact ih seen
    · simp only [dedupeFirst, if_neg hd, List.map_cons, List.nodup_cons]
      refine ⟨⟨?_, (ih (d.address :: seen)).1⟩, ?_⟩
      · intro hmem
        obtain ⟨x, hx, hax⟩ := List.mem_map.mp hmem
        exact (ih (d.address :: seen)).2 x hx (hax ▸ List.mem_cons_self _ _)
      · intro x hx
        rcases List.mem_cons.mp hx with heq | hxt
        · rw [heq]
          exact hd
        · intro hxs
          exact (ih (d.address :: seen)).2 x hxt (List.mem_cons_of_mem _ hxs)

theorem scan_fold_eq (advs : List (Device × List String)) :
    ∀ dict : List (String × Device),
    ((advs.foldl (fun d a => detection_callback d a.1 a.2) dict).map (fun p => p.2))
      = dict.map (fun p => p.2)
        ++ dedupeFirst (dict.map (fun p => p.1))
            ((advs.filter (fun a => HRS_UUID ∈ a.2)).map (fun a => a.1)) := by
  induction advs with
  | nil =>
    intro dict
    simp [dedupeFirst]
  | cons a rest ih =>
    intro dict
    rw [List.foldl_cons]
    by_cases hu : HRS_UUID ∈ a.2
    · rw [List.filter_cons_of_pos (by simpa using hu), List.map_cons]
      by_cases hmem : a.1.address ∈ dict.map (fun p => p.1)
      · have hall : dict.all (fun p => p.1 ≠ a.1.address) = false := by
          obtain ⟨p, hp, hpa⟩ := List.mem_map.mp hmem
          rw [List.all_eq_false]
          exact ⟨p, hp, by simp [hpa]⟩
        have hcb : detection_callback dict a.1 a.2 = dict := by
          unfold detection_callback
          rw [if_pos hu, hall]
          rfl
        rw [hcb, ih dict]
        simp only [dedupeFirst, if_pos hmem]
      · have hall : dict.all (fun p => p.1 ≠ a.1.address) = true := by
          simp only [List.all_eq_true, decide_eq_true_eq]
          intro p hp hpa
          exact hmem (List.mem_map.mpr ⟨p, hp, hpa⟩)
        have hcb : detection_callback dict a.1 a.2 = dict ++ [(a.1.address, a.1)] := by
          unfold detection_callback
          rw [if_pos hu, hall]
          rfl
        rw [hcb, ih (dict ++ [(a.1.address, a.1)])]
        simp only [dedupeFirst, if_neg hmem, List.map_append, List.map_cons, List.map_nil]
        rw [dedupeFirst_congr _ ((dict.map (fun p => p.1)) ++ [a.1.address])
            (a.1.address :: dict.map (fun p => p.1)) (by intro x; simp [or_comm])]
        simp
    · have hcb : detection_callback dict a.1 a.2 = dict := by
        unfold detection_callback
        rw [if_neg hu]
      rw [hcb, List.filter_cons_of_neg (by simpa using hu), ih dict]

/-- C7: the device list produced by the scan equals the spec registry: only
advertisements carrying the Heart Rate Service UUID are accepted, only the first
accepted advertisement per address creates an entry (keeping its name), entries
appear in discovery order, and no two entries share an address. -/
theorem C7_registry (advs : List (Device × List String)) :
    scan_for_heart_rate_devices advs = registry_spec advs ∧
    ((scan_for_heart_rate_devices advs).map (fun d => d.address)).Nodup := by
  have h := scan_fold_eq advs []
  constructor
  · unfold scan_for_heart_rate_devices registry_spec
    simpa using h
  · unfold scan_for_heart_rate_devices
    rw [show ((advs.foldl (fun d a => detection_callback d a.1 a.2) []).map (fun p => p.2))
        = dedupeFirst [] ((advs.filter (fun a => HRS_UUID ∈ a.2)).map (fun a => a.1))
      from by simpa using h]
    exact (dedupeFirst_nodup _ []).1

end MibandHeart
